import Mathlib

/-!
Shallow embedding of the vendor-onboarding bot (src/tools.py, src/agent.py,
src/rag_tool.py) and verification of the claims about it.

Conventions of the embedding:
- A Python session dict is a `Session` record; a key absent from the dict is a
  `none` field (for the boolean flags, which the code only ever sets to `True`,
  absence is `false`).
- The global `_onboarding_sessions` dict is a `Store`, an association list where
  an update conses a fresh binding that shadows older ones (`storeGet` finds the
  newest binding, exactly like a Python dict read after `dict.update`).
- Python functions that mutate the global store are `Store -> args -> String × Store`.
- External collaborators (the RAG search backend, the OpenAI model endpoint,
  `json.loads`) are black boxes, per the spec; they are passed in as oracle
  values: `Except String α` where `.error msg` models a raised exception with
  text `msg` and `.ok` models a normal return.
- The telemetry logger is always `None` in the model: `_log_to_galileo` with a
  `None` logger is a no-op in the source, so it contributes nothing.
-/

/-! ## Definitions: the embedded program -/

/-- One onboarding session: the keys the four tools ever write into
`_onboarding_sessions[session_id]` (src/tools.py). `none` models an absent
dict key; the two completion flags are only ever set to `True` in the source,
so a `Bool` with `false` for absent is faithful. -/
structure Session where
  company_name : Option String
  compliance_certifications : Option String
  data_access_needs : Option String
  company_lookup_complete : Bool
  application_complete : Bool
  certifications_saved_at : Option String
  data_access_saved_at : Option String
deriving DecidableEq, Repr

/-- The freshly created `_onboarding_sessions[session_id] = {}`. -/
def emptySession : Session :=
  { company_name := none
    compliance_certifications := none
    data_access_needs := none
    company_lookup_complete := false
    application_complete := false
    certifications_saved_at := none
    data_access_saved_at := none }

/-- The global `_onboarding_sessions` map, as an association list. -/
def Store := List (String × Session)

/-- Dictionary read: first (newest) binding wins. -/
def storeGet : Store → String → Option Session
  | [], _ => none
  | (k, v) :: rest, sid => if k = sid then some v else storeGet rest sid

/-- Dictionary write `_onboarding_sessions[sid] = v`: the new binding shadows
any older one. -/
def storeSet (store : Store) (sid : String) (v : Session) : Store :=
  (sid, v) :: store

/-- The empty `_onboarding_sessions = {}`. -/
def emptyStore : Store := []

/-- Whether all three required keys are present, i.e.
`all(key in session_data for key in required_keys)` in
`_check_and_mark_application_complete` (src/tools.py lines 20-23). -/
def allPresentB (s : Session) : Bool :=
  s.company_name.isSome && s.compliance_certifications.isSome && s.data_access_needs.isSome

/-- `_check_and_mark_application_complete` applied to one session record
(src/tools.py lines 16-25): if all required keys are present, set
`application_complete = True`; otherwise leave the record alone. The source
guards on `session_id in _onboarding_sessions`; every call site in the model
passes the record that is about to be (or already is) stored, so the guard is
always satisfied. -/
def checkAndMark (s : Session) : Session :=
  if allPresentB s then { s with application_complete := true } else s

/-- The retrieval collaborator as seen from the tools: a map from the search
query text to the outcome of `_get_company_rag_instance` followed by
`rag_instance.search`. `.error e` models an exception raised there (caught by
the tool's own handler), `.ok r` the returned text (which may itself be the
no-result message, see `RAGSystem.search` below). -/
def RagEnv := String → Except String String

/-- `lookup_company_information` (src/tools.py lines 64-126): build the search
query (appending the country clause when `country` is truthy), consult the
retrieval collaborator, and on success update the session — but only when
`session_id` is truthy (non-empty, line 100). -/
def lookup_company_information (env : RagEnv) (store : Store)
    (company_name country session_id : String) : String × Store :=
  match env ("company information for " ++ company_name
      ++ (if country ≠ "" then " incorporated in " ++ country else "")) with
  | .error e => ("Error looking up company information: " ++ e, store)
  | .ok result =>
    if session_id ≠ "" then
      let s0 := (storeGet store session_id).getD emptySession
      let s1 := { s0 with company_name := some company_name, company_lookup_complete := true }
      (result, storeSet store session_id (checkAndMark s1))
    else
      (result, store)

/-- `save_compliance_certifications` (src/tools.py lines 128-183): create the
session if needed, merge the three keys (the timestamp is the fixed literal
from line 156), re-derive completion, return the confirmation text. -/
def save_compliance_certifications (store : Store) (session_id company_name certifications : String) :
    String × Store :=
  let s0 := (storeGet store session_id).getD emptySession
  let s1 := { s0 with
    company_name := some company_name
    compliance_certifications := some certifications
    certifications_saved_at := some "2024-01-15" }
  let result := "✅ Compliance certifications saved for " ++ company_name ++ ":\n"
    ++ certifications ++ "\n\nThis information has been stored for the vendor risk assessment."
  (result, storeSet store session_id (checkAndMark s1))

/-- `save_data_access_requirements` (src/tools.py lines 185-240): same pattern
for the data-access field. -/
def save_data_access_requirements (store : Store) (session_id company_name data_access_needs : String) :
    String × Store :=
  let s0 := (storeGet store session_id).getD emptySession
  let s1 := { s0 with
    company_name := some company_name
    data_access_needs := some data_access_needs
    data_access_saved_at := some "2024-01-15" }
  let result := "✅ Data access requirements saved for " ++ company_name ++ ":\n"
    ++ data_access_needs ++ "\n\nThis information has been stored for review."
  (result, storeSet store session_id (checkAndMark s1))

/-- The `completed_items` count of `get_onboarding_summary`
(src/tools.py line 279). -/
def completedItems (s : Session) : Nat :=
  (if s.company_name.isSome then 1 else 0)
    + (if s.compliance_certifications.isSome then 1 else 0)
    + (if s.data_access_needs.isSome then 1 else 0)

/-- The `remaining` list of `get_onboarding_summary`
(src/tools.py lines 289-295), built in fixed order. -/
def remainingItems (s : Session) : List String :=
  (if s.company_name.isSome then [] else ["Company information"])
    ++ (if s.compliance_certifications.isSome then [] else ["Compliance certifications"])
    ++ (if s.data_access_needs.isSome then [] else ["Data access requirements"])

/-- The per-field lines of the summary (src/tools.py lines 269-276). -/
def fieldLines (s : Session) : String :=
  (match s.company_name with
    | some c => "**Company:** " ++ c ++ "\n"
    | none => "")
  ++ (match s.compliance_certifications with
    | some c => "**Compliance Certifications:** " ++ c ++ "\n"
    | none => "")
  ++ (match s.data_access_needs with
    | some c => "**Data Access Requirements:** " ++ c ++ "\n"
    | none => "")

/-- `get_onboarding_summary` (src/tools.py lines 242-317). For an unknown
session it returns the fixed no-data text. Otherwise it renders the present
fields, the completed count, and either the completion banner (also writing
`application_complete = True` back into the session, line 286) or the pending
list. -/
def get_onboarding_summary (store : Store) (session_id : String) : String × Store :=
  match storeGet store session_id with
  | none => ("No application data found. Please start the vendor application process.", store)
  | some s =>
    let base := "📋 VENDOR APPLICATION SUMMARY\n\n" ++ fieldLines s
      ++ "\n**Application Status:** " ++ toString (completedItems s) ++ "/3 sections completed\n"
    if completedItems s = 3 then
      (base ++ "\n✅ **Application Complete** - All required information has been collected.",
        storeSet store session_id { s with application_complete := true })
    else
      (base ++ "\n⏳ **Pending:** " ++ String.intercalate ", " (remainingItems s), store)

/-- One invocation of one of the four registered tool operations, with the RAG
oracle for the lookup packaged in. -/
inductive ToolOp where
  | lookup (company_name country session_id : String) (env : RagEnv)
  | saveCompliance (session_id company_name certifications : String)
  | saveDataAccess (session_id company_name data_access_needs : String)
  | summary (session_id : String)

/-- Run one tool operation against the store, keeping only the store effect. -/
def applyOp (store : Store) : ToolOp → Store
  | .lookup cn c sid env => (lookup_company_information env store cn c sid).2
  | .saveCompliance sid cn certs => (save_compliance_certifications store sid cn certs).2
  | .saveDataAccess sid cn needs => (save_data_access_requirements store sid cn needs).2
  | .summary sid => (get_onboarding_summary store sid).2

/-- Run a sequence of tool operations starting from the empty store. -/
def applyOps (ops : List ToolOp) : Store :=
  ops.foldl applyOp emptyStore

/-- Per-session invariant: the `application_complete` flag is set exactly when
all three required keys are present. -/
def SessionOK (s : Session) : Prop :=
  s.application_complete = true ↔ allPresentB s = true

/-- Store-wide invariant: every stored session satisfies `SessionOK`. -/
def StoreOK (store : Store) : Prop :=
  ∀ sid s, storeGet store sid = some s → SessionOK s

/-- One retrieved document as formatted by `get_rag_response`
(src/rag_tool.py lines 145-154): only the content text matters downstream; the
relevance score and pass-through metadata never influence `search`. -/
structure Document where
  content : String
deriving DecidableEq, Repr

/-- `RAGSystem.get_rag_response` (src/rag_tool.py lines 89-201). `initOk`
models whether the lazy `self.initialize()` left `_initialized` set (that
method catches its own failures and surfaces them only as
`_initialized = False`); `backend` models the embedding call plus the vector
index query: `.error e` is an exception raised by either (caught by the
handler at line 177), `.ok docs` the formatted match list. The result is
`none` exactly on the not-initialized, zero-match and fault paths (the Python
`return None`). -/
def get_rag_response (initOk : Bool) (backend : Except String (List Document)) :
    Option (List Document) :=
  if initOk = false then none
  else
    match backend with
    | .error _ => none
    | .ok docs => if docs = [] then none else some docs

/-- `RAGSystem.search` (src/rag_tool.py lines 203-215): the no-result text when
retrieval yields nothing, otherwise the document contents joined by a blank
line. -/
def RAGSystem.search (initOk : Bool) (backend : Except String (List Document))
    (query : String) : String :=
  match get_rag_response initOk backend with
  | none => "No relevant information found for: " ++ query
  | some docs =>
    if docs = [] then "No relevant information found for: " ++ query
    else String.intercalate "\n\n" (docs.map Document.content)

/-- A parsed JSON argument object: string keys to string values. Every
claim-relevant argument in the source is a string. The `galileo_logger` entry
that src/agent.py line 65 adds is the `None` telemetry handle; every
registered operation accepts it and a `None` value makes `_log_to_galileo` a
no-op, so the model keeps it out of the dict (but keeps the key admissible
for keyword binding). -/
abbrev ArgDict := List (String × String)

/-- Dictionary read on a parsed argument object. -/
def argLookup : ArgDict → String → Option String
  | [], _ => none
  | (k, v) :: rest, key => if k = key then some v else argLookup rest key

instance {ε α : Type} [DecidableEq ε] [DecidableEq α] : DecidableEq (Except ε α) := fun a b =>
  match a, b with
  | .error e, .error f => decidable_of_iff (e = f) (by simp)
  | .error _, .ok _ => Decidable.isFalse (fun hc => Except.noConfusion hc)
  | .ok _, .error _ => Decidable.isFalse (fun hc => Except.noConfusion hc)
  | .ok x, .ok y => decidable_of_iff (x = y) (by simp)

/-- One tool invocation from a model reply: correlation id, function name, and
the outcome of `json.loads` on the raw argument payload. `.error e` models a
payload on which `json.loads` (src/agent.py line 62) raises with message `e`
(this also covers a payload that parses to a non-object, on which the item
assignment at line 65 raises); `.ok args` a parsed argument object. -/
structure ToolCall where
  id : String
  name : String
  args : Except String ArgDict
deriving DecidableEq, Repr

/-- Keyword binding of `f(**arguments)`: every required parameter must be
supplied and every supplied key must name a parameter, else Python raises
`TypeError` (inside the `try` of src/agent.py, hence caught). -/
def bindOk (args : ArgDict) (required allowed : List String) : Bool :=
  required.all (fun k => (argLookup args k).isSome)
    && args.all (fun p => allowed.contains p.1)

/-- The dispatch block of `execute_tool_call` (src/agent.py lines 73-86): the
four-way name test, keyword binding against the selected operation's
signature (a binding `TypeError` is caught at line 84 and rendered as the
`Error executing <name>: <message>` text, whose Python message is modelled
abstractly as `invalid arguments`), and the `Unknown tool` fallback for an
unregistered name. -/
def dispatch (env : RagEnv) (name : String) (args : ArgDict) (store : Store) :
    String × Store :=
  if name = "lookupCompanyInformation" then
    match argLookup args "company_name",
        bindOk args ["company_name"]
          ["company_name", "country", "session_id", "galileo_logger"] with
    | some cn, true =>
      lookup_company_information env store cn ((argLookup args "country").getD "")
        ((argLookup args "session_id").getD "")
    | _, _ => ("Error executing " ++ name ++ ": invalid arguments", store)
  else if name = "saveComplianceCertifications" then
    match argLookup args "session_id", argLookup args "company_name",
        argLookup args "certifications",
        bindOk args ["session_id", "company_name", "certifications"]
          ["session_id", "company_name", "certifications", "galileo_logger"] with
    | some sid, some cn, some certs, true => save_compliance_certifications store sid cn certs
    | _, _, _, _ => ("Error executing " ++ name ++ ": invalid arguments", store)
  else if name = "saveDataAccessRequirements" then
    match argLookup args "session_id", argLookup args "company_name",
        argLookup args "data_access_needs",
        bindOk args ["session_id", "company_name", "data_access_needs"]
          ["session_id", "company_name", "data_access_needs", "galileo_logger"] with
    | some sid, some cn, some needs, true => save_data_access_requirements store sid cn needs
    | _, _, _, _ => ("Error executing " ++ name ++ ": invalid arguments", store)
  else if name = "getOnboardingSummary" then
    match argLookup args "session_id",
        bindOk args ["session_id"] ["session_id", "galileo_logger"] with
    | some sid, true => get_onboarding_summary store sid
    | _, _ => ("Error executing " ++ name ++ ": invalid arguments", store)
  else ("Unknown tool: " ++ name, store)

/-- `execute_tool_call` (src/agent.py lines 59-86). The `json.loads` on the
raw argument payload runs BEFORE the `try` block (line 62 versus line 73), so
a malformed payload propagates out of this function — recorded here as
`.error`. On a parsed payload the ambient session id is injected when the
model omitted it and the id is truthy (lines 67-69), and the dispatch runs
inside the `try`, yielding `.ok` with a textual result in every case. -/
def execute_tool_call (env : RagEnv) (tc : ToolCall) (ambient_session_id : String)
    (store : Store) : Except String (String × Store) :=
  match tc.args with
  | .error e => .error e
  | .ok args0 =>
    let args := if argLookup args0 "session_id" = none ∧ ambient_session_id ≠ ""
      then args0 ++ [("session_id", ambient_session_id)] else args0
    .ok (dispatch env tc.name args store)

/-- One conversation turn in the wire format `process_query` builds. -/
inductive Msg where
  | system (content : String)
  | user (content : String)
  | assistant (content : Option String) (tool_calls : List ToolCall)
  | tool (tool_call_id : String) (content : String)
deriving DecidableEq, Repr

/-- One model reply, `choices[0].message`: text content (possibly absent) and
the tool invocations it carries (`None` and the empty list are both modelled
as `[]`, matching Python truthiness at src/agent.py line 203). -/
structure ModelReply where
  content : Option String
  tool_calls : List ToolCall
deriving DecidableEq, Repr

/-- The `content or "No response generated"` fallback (src/agent.py lines 271
and 273): Python treats both `None` and the empty string as falsy. -/
def contentOr : Option String → String
  | none => "No response generated"
  | some c => if c = "" then "No response generated" else c

/-- The oracle value standing for a model request that never returned — used
only as the default of an out-of-range oracle read, behaving like a raised
fault. -/
def noReply : Except String ModelReply := Except.error "no model reply"

/-- Everything observable about one `process_query` call. `answer` is the
returned string; `store` the session store afterwards; `requests` how many
model requests were issued; `executed` the tool invocations actually
dispatched, in execution order; `working` the internal `messages_to_use` list
when the call ended (discarded by the source, exposed here for inspection);
`persisted` the conversation history the caller keeps — the source reads
`conversation_messages` but never writes it (it copies into
`messages_to_use`, src/agent.py lines 137-152), so this is always the input
history. -/
structure QueryResult where
  answer : String
  store : Store
  requests : Nat
  executed : List ToolCall
  working : List Msg
  persisted : List Msg

/-- The tool-execution loop of `process_query` (src/agent.py lines 222-231):
execute each invocation in model order, appending one tool-result turn per
invocation, carrying that invocation's correlation id. The first component is
`some e` when an invocation raised (only a malformed argument payload can,
see `execute_tool_call`): the Python exception then unwinds to the outer
handler of `process_query`, abandoning the remaining invocations. -/
def execToolCalls (env : RagEnv) (sid : String) :
    List ToolCall → List Msg → Store → List ToolCall →
      Option String × List Msg × Store × List ToolCall
  | [], msgs, store, ex => (none, msgs, store, ex)
  | tc :: rest, msgs, store, ex =>
    match execute_tool_call env tc sid store with
    | .error e => (some e, msgs, store, ex)
    | .ok (result, store1) =>
      execToolCalls env sid rest (msgs ++ [Msg.tool tc.id result]) store1 (ex ++ [tc])

/-- `process_query` (src/agent.py lines 129-277). The model endpoint is the
oracle list `replies`, consumed in order: entry 0 answers the initial
request, entry 1 the follow-up; `.error e` models the OpenAI call raising
with message `e`. The outer `try/except` (line 275) is this function's
totality: every fault that reaches it becomes the
`Error processing your request:` text. -/
def process_query (systemPrompt session_id : String) (env : RagEnv)
    (replies : List (Except String ModelReply)) (history : List Msg) (store : Store) :
    QueryResult :=
  let msgs0 := Msg.system systemPrompt :: history
  match replies.getD 0 noReply with
  | .error e =>
    { answer := "Error processing your request: " ++ e
      store := store
      requests := 1
      executed := []
      working := msgs0
      persisted := history }
  | .ok r1 =>
    if r1.tool_calls = [] then
      { answer := contentOr r1.content
        store := store
        requests := 1
        executed := []
        working := msgs0
        persisted := history }
    else
      let msgs1 := msgs0 ++ [Msg.assistant r1.content r1.tool_calls]
      match execToolCalls env session_id r1.tool_calls msgs1 store [] with
      | (some e, msgs2, store2, ex2) =>
        { answer := "Error processing your request: " ++ e
          store := store2
          requests := 1
          executed := ex2
          working := msgs2
          persisted := history }
      | (none, msgs2, store2, ex2) =>
        match replies.getD 1 noReply with
        | .error e =>
          { answer := "Error processing your request: " ++ e
            store := store2
            requests := 2
            executed := ex2
            working := msgs2
            persisted := history }
        | .ok r2 =>
          { answer := contentOr r2.content
            store := store2
            requests := 2
            executed := ex2
            working := msgs2
            persisted := history }

/-- A fixed retrieval oracle for concrete evaluations. -/
def envFix : RagEnv := fun _ => Except.ok "ACME CORP: low risk vendor"

/-- A concrete summary invocation with a parsed argument payload. -/
def tcSummary : ToolCall :=
  { id := "call_1"
    name := "getOnboardingSummary"
    args := Except.ok [("session_id", "s1")] }

/-- A concrete second-round invocation, carried by the follow-up reply. -/
def tcExtra : ToolCall :=
  { id := "call_2"
    name := "saveComplianceCertifications"
    args := Except.ok [("session_id", "s1"), ("company_name", "Acme"),
      ("certifications", "SOC 2")] }

/-- A first model reply carrying one tool invocation. -/
def replyWithTool : ModelReply :=
  { content := some "Checking the records."
    tool_calls := [tcSummary] }

/-- A follow-up model reply that itself carries an invocation, which the loop
must discard. -/
def replyFollowUp : ModelReply :=
  { content := some "All done."
    tool_calls := [tcExtra] }

/-- A tool call whose raw argument payload is not valid JSON, so `json.loads`
raises on it. -/
def tcMalformed : ToolCall :=
  { id := "call_7"
    name := "getOnboardingSummary"
    args := Except.error "Expecting value: line 1 column 1 (char 0)" }

/-- A tool call naming no registered operation. -/
def tcUnknown : ToolCall :=
  { id := "call_9"
    name := "resetDatabase"
    args := Except.ok [] }

/-! ## Theorems -/

lemma storeOK_empty : StoreOK emptyStore := by
  intro sid s h
  simp [storeGet, emptyStore] at h

lemma storeOK_set {store : Store} (h : StoreOK store) {v : Session} (hv : SessionOK v)
    (sid : String) : StoreOK (storeSet store sid v) := by
  intro q s hq
  simp only [storeSet, storeGet] at hq
  split at hq
  · cases hq
    exact hv
  · exact h q s hq

lemma sessionOK_checkAndMark (s : Session)
    (h : s.application_complete = true → allPresentB s = true) :
    SessionOK (checkAndMark s) := by
  unfold SessionOK checkAndMark
  by_cases hp : allPresentB s = true
  · rw [if_pos hp]
    have hsame : allPresentB { s with application_complete := true } = allPresentB s := rfl
    rw [hsame, hp]
  · rw [if_neg hp]
    exact ⟨fun hac => absurd (h hac) hp, fun hall => absurd hall hp⟩

lemma getD_app_all {store : Store} (h : StoreOK store) (sid : String)
    (hac : ((storeGet store sid).getD emptySession).application_complete = true) :
    allPresentB ((storeGet store sid).getD emptySession) = true := by
  cases hg : storeGet store sid with
  | none => rw [hg] at hac; exact Bool.noConfusion hac
  | some s => rw [hg] at hac; exact (h sid s hg).mp hac

lemma completedItems_three {s : Session} (h : completedItems s = 3) : allPresentB s = true := by
  unfold completedItems at h
  unfold allPresentB
  by_cases h1 : s.company_name.isSome <;> by_cases h2 : s.compliance_certifications.isSome <;>
    by_cases h3 : s.data_access_needs.isSome <;>
      simp [h1, h2, h3] at h ⊢

lemma storeOK_applyOp {store : Store} (h : StoreOK store) (op : ToolOp) :
    StoreOK (applyOp store op) := by
  cases op with
  | lookup cn c sid env =>
    show StoreOK (lookup_company_information env store cn c sid).2
    unfold lookup_company_information
    cases henv : env ("company information for " ++ cn
        ++ (if c ≠ "" then " incorporated in " ++ c else "")) with
    | error e => exact h
    | ok r =>
      show StoreOK (if sid ≠ "" then
          (r, storeSet store sid (checkAndMark
            { (storeGet store sid).getD emptySession with
              company_name := some cn, company_lookup_complete := true }))
        else (r, store)).2
      by_cases hsid : sid ≠ ""
      · rw [if_pos hsid]
        apply storeOK_set h _ sid
        apply sessionOK_checkAndMark
        intro hac
        have h0 := getD_app_all h sid hac
        simp only [allPresentB, Bool.and_eq_true] at h0 ⊢
        exact ⟨⟨rfl, h0.1.2⟩, h0.2⟩
      · rw [if_neg hsid]
        exact h
  | saveCompliance sid cn certs =>
    show StoreOK (save_compliance_certifications store sid cn certs).2
    unfold save_compliance_certifications
    apply storeOK_set h _ sid
    apply sessionOK_checkAndMark
    intro hac
    have h0 := getD_app_all h sid hac
    simp only [allPresentB, Bool.and_eq_true] at h0 ⊢
    exact ⟨⟨rfl, rfl⟩, h0.2⟩
  | saveDataAccess sid cn needs =>
    show StoreOK (save_data_access_requirements store sid cn needs).2
    unfold save_data_access_requirements
    apply storeOK_set h _ sid
    apply sessionOK_checkAndMark
    intro hac
    have h0 := getD_app_all h sid hac
    simp only [allPresentB, Bool.and_eq_true] at h0 ⊢
    exact ⟨⟨rfl, h0.1.2⟩, rfl⟩
  | summary sid =>
    show StoreOK (get_onboarding_summary store sid).2
    unfold get_onboarding_summary
    cases hg : storeGet store sid with
    | none => simpa using h
    | some s =>
      simp only
      by_cases hc : completedItems s = 3
      · rw [if_pos hc]
        apply storeOK_set h _ sid
        exact ⟨fun _ => completedItems_three hc, fun _ => rfl⟩
      · rw [if_neg hc]
        exact h

lemma storeOK_foldl (ops : List ToolOp) :
    ∀ store, StoreOK store → StoreOK (ops.foldl applyOp store) := by
  induction ops with
  | nil => intro st h; exact h
  | cons op rest ih =>
    intro st h
    exact ih _ (storeOK_applyOp h op)

/-- C1: after any sequence of the four tool operations applied to the (initially
empty) session store, every stored session has its `application_complete` flag
set exactly when `company_name`, `compliance_certifications` and
`data_access_needs` are all present. -/
theorem application_complete_iff_all_fields (ops : List ToolOp) (sid : String) (s : Session)
    (h : storeGet (applyOps ops) sid = some s) :
    s.application_complete = true ↔
      (s.company_name.isSome = true ∧ s.compliance_certifications.isSome = true
        ∧ s.data_access_needs.isSome = true) := by
  have hok : StoreOK (applyOps ops) := storeOK_foldl ops emptyStore storeOK_empty
  have hs := hok sid s h
  unfold SessionOK at hs
  simpa [allPresentB, Bool.and_eq_true, and_assoc] using hs

/-- Witness for C1 at a concrete operation sequence: after saving compliance
certifications and then data access requirements for session `s1`, the stored
session has the flag set and all three fields present. -/
theorem application_complete_iff_all_fields_witness :
    (({ company_name := some "Acme", compliance_certifications := some "SOC 2",
        data_access_needs := some "db", company_lookup_complete := false,
        application_complete := true, certifications_saved_at := some "2024-01-15",
        data_access_saved_at := some "2024-01-15" } : Session).application_complete = true ↔
      (some "Acme" : Option String).isSome = true ∧
        (some "SOC 2" : Option String).isSome = true ∧
        (some "db" : Option String).isSome = true) :=
  application_complete_iff_all_fields
    [ToolOp.saveCompliance "s1" "Acme" "SOC 2", ToolOp.saveDataAccess "s1" "Acme" "db"]
    "s1" _ (by decide)

/-- C9: for a session id absent from the store, `get_onboarding_summary`
returns exactly the fixed no-data text and leaves the store unchanged (and, the
function being total, raises no fault). -/
theorem get_onboarding_summary_unknown_session (store : Store) (sid : String)
    (h : storeGet store sid = none) :
    get_onboarding_summary store sid =
      ("No application data found. Please start the vendor application process.", store) := by
  unfold get_onboarding_summary
  rw [h]

/-- Witness for C9: the unknown session id `ghost` against the empty store. -/
theorem get_onboarding_summary_unknown_session_witness :
    get_onboarding_summary emptyStore "ghost" =
      ("No application data found. Please start the vendor application process.", emptyStore) :=
  get_onboarding_summary_unknown_session emptyStore "ghost" rfl

/-- C10: `lookup_company_information` called with the empty `session_id` leaves
the session store entirely unchanged, whatever the company name, country and
retrieval outcome are — the `if session_id:` guard is falsy, so no session is
created and no field is written. -/
theorem lookup_empty_session_id_frame (env : RagEnv) (store : Store) (cn country : String) :
    (lookup_company_information env store cn country "").2 = store := by
  unfold lookup_company_information
  cases henv : env ("company information for " ++ cn
      ++ (if country ≠ "" then " incorporated in " ++ country else "")) with
  | error e => rfl
  | ok r => simp

lemma storeGet_set (st : Store) (sid q : String) (v : Session) :
    storeGet (storeSet st sid v) q = if sid = q then some v else storeGet st q := rfl

lemma storeGet_set_same (st : Store) (sid : String) (v : Session) :
    storeGet (storeSet st sid v) sid = some v := by
  rw [storeGet_set]
  simp

/-- Saving twice through the common save pattern (merge fields via `u`, then
re-derive completion, then store) reads back the same store as saving once,
provided one application of the pattern is a fixpoint of a second. -/
lemma storeGet_save_twice (store : Store) (sid q : String) (u : Session → Session)
    (hu : ∀ s, checkAndMark (u (checkAndMark (u s))) = checkAndMark (u s)) :
    storeGet (storeSet (storeSet store sid (checkAndMark (u ((storeGet store sid).getD emptySession)))) sid
        (checkAndMark (u ((storeGet (storeSet store sid
          (checkAndMark (u ((storeGet store sid).getD emptySession)))) sid).getD emptySession)))) q
      = storeGet (storeSet store sid (checkAndMark (u ((storeGet store sid).getD emptySession)))) q := by
  rw [storeGet_set_same]
  simp only [Option.getD_some]
  rw [hu]
  simp only [storeGet_set]
  by_cases hq : sid = q <;> simp [hq]

/-- C8: calling `save_compliance_certifications` twice with identical arguments
leaves the session store (read at any id) identical to its state after the
first call — the stored timestamp included, since it is the fixed literal
`2024-01-15` — and likewise for `save_data_access_requirements`. -/
theorem save_operations_idempotent (store : Store) (sid cn certs needs q : String) :
    (storeGet ((save_compliance_certifications
        ((save_compliance_certifications store sid cn certs).2) sid cn certs).2) q =
      storeGet ((save_compliance_certifications store sid cn certs).2) q) ∧
    (storeGet ((save_data_access_requirements
        ((save_data_access_requirements store sid cn needs).2) sid cn needs).2) q =
      storeGet ((save_data_access_requirements store sid cn needs).2) q) := by
  constructor
  · exact storeGet_save_twice store sid q
      (fun s => { s with
        company_name := some cn
        compliance_certifications := some certs
        certifications_saved_at := some "2024-01-15" })
      (by
        intro s
        cases s with
        | mk a b c d e f g =>
          by_cases hc : c.isSome = true <;> simp [checkAndMark, allPresentB, hc])
  · exact storeGet_save_twice store sid q
      (fun s => { s with
        company_name := some cn
        data_access_needs := some needs
        data_access_saved_at := some "2024-01-15" })
      (by
        intro s
        cases s with
        | mk a b c d e f g =>
          by_cases hb : b.isSome = true <;> simp [checkAndMark, allPresentB, hb])

/-- C7: for a session present in the store with fewer than three fields set,
`get_onboarding_summary` renders the present fields, the completed count out of
3, and the pending list; the pending list is a sublist of the three labels in
their fixed order and contains exactly the labels of the absent fields; and on
a session with exactly two of the three fields set it contains exactly one
item, naming the absent field. -/
theorem get_onboarding_summary_pending_fields (store : Store) (sid : String) (s : Session)
    (hg : storeGet store sid = some s) (hlt : completedItems s < 3) :
    ((get_onboarding_summary store sid).1 =
      "📋 VENDOR APPLICATION SUMMARY\n\n" ++ fieldLines s
        ++ "\n**Application Status:** " ++ toString (completedItems s) ++ "/3 sections completed\n"
        ++ "\n⏳ **Pending:** " ++ String.intercalate ", " (remainingItems s)) ∧
    List.Sublist (remainingItems s)
      ["Company information", "Compliance certifications", "Data access requirements"] ∧
    (∀ item, item ∈ remainingItems s ↔
      ((item = "Company information" ∧ s.company_name = none) ∨
        (item = "Compliance certifications" ∧ s.compliance_certifications = none) ∨
        (item = "Data access requirements" ∧ s.data_access_needs = none))) ∧
    (completedItems s = 2 → ∃ item, remainingItems s = [item] ∧
      ((item = "Company information" ∧ s.company_name = none) ∨
        (item = "Compliance certifications" ∧ s.compliance_certifications = none) ∨
        (item = "Data access requirements" ∧ s.data_access_needs = none))) := by
  refine ⟨?_, ?_, ?_, ?_⟩
  · simp only [get_onboarding_summary, hg]
    rw [if_neg (Nat.ne_of_lt hlt)]
  · by_cases h1 : s.company_name = none <;> by_cases h2 : s.compliance_certifications = none <;>
      by_cases h3 : s.data_access_needs = none <;>
        simp [remainingItems, Option.isSome_iff_ne_none, h1, h2, h3]
  · intro item
    by_cases h1 : s.company_name = none <;> by_cases h2 : s.compliance_certifications = none <;>
      by_cases h3 : s.data_access_needs = none <;>
        simp [remainingItems, Option.isSome_iff_ne_none, h1, h2, h3]
  · intro h2c
    by_cases h1 : s.company_name = none <;> by_cases h2 : s.compliance_certifications = none <;>
      by_cases h3 : s.data_access_needs = none
    all_goals
      first
      | (exfalso
         simp [completedItems, Option.isSome_iff_ne_none, h1, h2, h3] at h2c
         done)
      | (refine ⟨"Company information", ?_, Or.inl ⟨rfl, h1⟩⟩
         simp [remainingItems, Option.isSome_iff_ne_none, h1, h2, h3])
      | (refine ⟨"Compliance certifications", ?_, Or.inr (Or.inl ⟨rfl, h2⟩)⟩
         simp [remainingItems, Option.isSome_iff_ne_none, h1, h2, h3])
      | (refine ⟨"Data access requirements", ?_, Or.inr (Or.inr ⟨rfl, h3⟩)⟩
         simp [remainingItems, Option.isSome_iff_ne_none, h1, h2, h3])

/-- Witness for C7: a stored session with exactly company and compliance set;
the data-access label is in the pending list exactly because that field is
absent. -/
theorem get_onboarding_summary_pending_fields_witness :
    "Data access requirements" ∈ remainingItems
        { company_name := some "Acme"
          compliance_certifications := some "SOC 2"
          data_access_needs := none
          company_lookup_complete := true
          application_complete := false
          certifications_saved_at := some "2024-01-15"
          data_access_saved_at := none } ↔
      (("Data access requirements" = "Company information" ∧
          (some "Acme" : Option String) = none) ∨
        ("Data access requirements" = "Compliance certifications" ∧
          (some "SOC 2" : Option String) = none) ∨
        ("Data access requirements" = "Data access requirements" ∧
          (none : Option String) = none)) :=
  (get_onboarding_summary_pending_fields
      [("s1", { company_name := some "Acme"
                compliance_certifications := some "SOC 2"
                data_access_needs := none
                company_lookup_complete := true
                application_complete := false
                certifications_saved_at := some "2024-01-15"
                data_access_saved_at := none })] "s1" _
      (by decide) (by decide)).2.2.1 "Data access requirements"

/-- C6: `search` is a total function of the backend outcome — no fault escapes
the retrieval component — and: on a backend fault, on zero matches, or when
initialization failed, it returns the explicit no-result text for the query;
otherwise it returns the retrieved document contents joined by a blank-line
separator. -/
theorem rag_search_total_spec (initOk : Bool) (backend : Except String (List Document))
    (query : String) :
    (∀ e, backend = Except.error e →
      RAGSystem.search initOk backend query = "No relevant information found for: " ++ query) ∧
    (backend = Except.ok [] →
      RAGSystem.search initOk backend query = "No relevant information found for: " ++ query) ∧
    (initOk = false →
      RAGSystem.search initOk backend query = "No relevant information found for: " ++ query) ∧
    (∀ docs, backend = Except.ok docs → docs ≠ [] → initOk = true →
      RAGSystem.search initOk backend query =
        String.intercalate "\n\n" (docs.map Document.content)) := by
  refine ⟨?_, ?_, ?_, ?_⟩
  · intro e he
    subst he
    cases initOk <;> simp [RAGSystem.search, get_rag_response]
  · intro he
    subst he
    cases initOk <;> simp [RAGSystem.search, get_rag_response]
  · intro hi
    subst hi
    simp [RAGSystem.search, get_rag_response]
  · intro docs hd hne hi
    subst hd hi
    simp [RAGSystem.search, get_rag_response, hne]

/-- Witness for C6 at a concrete input: two retrieved documents are joined by
one blank line. -/
theorem rag_search_total_spec_witness :
    RAGSystem.search true (Except.ok [⟨"doc one"⟩, ⟨"doc two"⟩]) "acme" =
      String.intercalate "\n\n"
        (([⟨"doc one"⟩, ⟨"doc two"⟩] : List Document).map Document.content) :=
  (rag_search_total_spec true (Except.ok [⟨"doc one"⟩, ⟨"doc two"⟩]) "acme").2.2.2
    [⟨"doc one"⟩, ⟨"doc two"⟩] rfl (by decide) rfl

lemma execute_tool_call_parsed (env : RagEnv) (tc : ToolCall) (sid : String) (store : Store)
    (d : ArgDict) (hd : tc.args = Except.ok d) :
    execute_tool_call env tc sid store =
      Except.ok (dispatch env tc.name
        (if argLookup d "session_id" = none ∧ sid ≠ ""
          then d ++ [("session_id", sid)] else d) store) := by
  unfold execute_tool_call
  rw [hd]

lemma execToolCalls_parsed (env : RagEnv) (sid : String) :
    ∀ (calls : List ToolCall) (msgs : List Msg) (store : Store) (acc : List ToolCall),
      (∀ tc ∈ calls, ∃ d, tc.args = Except.ok d) →
      ∃ (results : List String) (store1 : Store),
        results.length = calls.length ∧
        execToolCalls env sid calls msgs store acc =
          (none, msgs ++ List.zipWith (fun tc r => Msg.tool tc.id r) calls results, store1,
            acc ++ calls) := by
  intro calls
  induction calls with
  | nil =>
    intro msgs store acc _
    exact ⟨[], store, rfl, by simp [execToolCalls]⟩
  | cons tc rest ih =>
    intro msgs store acc hok
    obtain ⟨d, hd⟩ := hok tc (List.mem_cons_self tc rest)
    have hrest : ∀ tc2 ∈ rest, ∃ d2, tc2.args = Except.ok d2 :=
      fun tc2 h2 => hok tc2 (List.mem_cons_of_mem tc h2)
    obtain ⟨r1, st1, hds⟩ : ∃ r1 st1, dispatch env tc.name
        (if argLookup d "session_id" = none ∧ sid ≠ ""
          then d ++ [("session_id", sid)] else d) store = (r1, st1) := ⟨_, _, rfl⟩
    have hexec : execute_tool_call env tc sid store = Except.ok (r1, st1) := by
      rw [execute_tool_call_parsed env tc sid store d hd, hds]
    obtain ⟨results, store1, hlen, heq⟩ :=
      ih (msgs ++ [Msg.tool tc.id r1]) st1 (acc ++ [tc]) hrest
    refine ⟨r1 :: results, store1, by simp [hlen], ?_⟩
    simp only [execToolCalls, hexec]
    rw [heq]
    simp

/-- C2: when the first model reply carries at least one tool invocation, each
with a payload that parses (so the Python loop reaches the follow-up request),
`process_query` issues exactly one follow-up model request — two requests in
total — returns the follow-up reply's text as the final answer (with the
Python `or` fallback for absent or empty text), and executes exactly the first
reply's invocations: any invocations carried by the follow-up reply `r2` are
never executed. -/
theorem process_query_single_followup (systemPrompt session_id : String) (env : RagEnv)
    (replies : List (Except String ModelReply)) (history : List Msg) (store : Store)
    (r1 r2 : ModelReply)
    (h0 : replies.getD 0 noReply = Except.ok r1)
    (h1 : replies.getD 1 noReply = Except.ok r2)
    (hne : r1.tool_calls ≠ [])
    (hok : ∀ tc ∈ r1.tool_calls, ∃ d, tc.args = Except.ok d) :
    (process_query systemPrompt session_id env replies history store).requests = 2 ∧
    (process_query systemPrompt session_id env replies history store).answer =
      contentOr r2.content ∧
    (process_query systemPrompt session_id env replies history store).executed =
      r1.tool_calls := by
  obtain ⟨results, store1, hlen, heq⟩ := execToolCalls_parsed env session_id r1.tool_calls
    ((Msg.system systemPrompt :: history) ++ [Msg.assistant r1.content r1.tool_calls]) store [] hok
  simp only [process_query, h0]
  rw [if_neg hne]
  simp only [heq, h1]
  simp

/-- Witness for C2: the first reply carries one summary invocation; the
follow-up reply carries both text and another invocation. Two requests are
made, the follow-up text is the answer, and only the first invocation ran. -/
theorem process_query_single_followup_witness :
    (process_query "sys" "s1" envFix [Except.ok replyWithTool, Except.ok replyFollowUp]
      [Msg.user "hello"] emptyStore).requests = 2 ∧
    (process_query "sys" "s1" envFix [Except.ok replyWithTool, Except.ok replyFollowUp]
      [Msg.user "hello"] emptyStore).answer = contentOr replyFollowUp.content ∧
    (process_query "sys" "s1" envFix [Except.ok replyWithTool, Except.ok replyFollowUp]
      [Msg.user "hello"] emptyStore).executed = replyWithTool.tool_calls :=
  process_query_single_followup "sys" "s1" envFix
    [Except.ok replyWithTool, Except.ok replyFollowUp] [Msg.user "hello"] emptyStore
    replyWithTool replyFollowUp rfl rfl (by decide)
    (fun tc htc => ⟨[("session_id", "s1")], by
      simp [replyWithTool, tcSummary] at htc
      subst htc
      rfl⟩)

/-- C3: when the first model reply carries tool invocations (each with a
payload that parses), the working history at the end of the call is the
system turn and the input history, then the assistant turn carrying those
invocations, then exactly one tool-result turn per invocation, in the order
the model produced them, each tool-result turn carrying the correlation id of
the invocation it answers — no reordering, deduplication or skipping. -/
theorem process_query_tool_result_order (systemPrompt session_id : String) (env : RagEnv)
    (replies : List (Except String ModelReply)) (history : List Msg) (store : Store)
    (r1 r2 : ModelReply)
    (h0 : replies.getD 0 noReply = Except.ok r1)
    (h1 : replies.getD 1 noReply = Except.ok r2)
    (hne : r1.tool_calls ≠ [])
    (hok : ∀ tc ∈ r1.tool_calls, ∃ d, tc.args = Except.ok d) :
    ∃ results : List String, results.length = r1.tool_calls.length ∧
      (process_query systemPrompt session_id env replies history store).working =
        (Msg.system systemPrompt :: history) ++ [Msg.assistant r1.content r1.tool_calls]
          ++ List.zipWith (fun tc r => Msg.tool tc.id r) r1.tool_calls results := by
  obtain ⟨results, store1, hlen, heq⟩ := execToolCalls_parsed env session_id r1.tool_calls
    ((Msg.system systemPrompt :: history) ++ [Msg.assistant r1.content r1.tool_calls]) store [] hok
  refine ⟨results, hlen, ?_⟩
  simp only [process_query, h0]
  rw [if_neg hne]
  simp only [heq, h1]

/-- Witness for C3 at the concrete fixtures: one invocation, one tool-result
turn, appended after the assistant turn. -/
theorem process_query_tool_result_order_witness :
    ∃ results : List String, results.length = replyWithTool.tool_calls.length ∧
      (process_query "sys" "s1" envFix [Except.ok replyWithTool, Except.ok replyFollowUp]
        [Msg.user "hello"] emptyStore).working =
        (Msg.system "sys" :: [Msg.user "hello"])
          ++ [Msg.assistant replyWithTool.content replyWithTool.tool_calls]
          ++ List.zipWith (fun tc r => Msg.tool tc.id r) replyWithTool.tool_calls results :=
  process_query_tool_result_order "sys" "s1" envFix
    [Except.ok replyWithTool, Except.ok replyFollowUp] [Msg.user "hello"] emptyStore
    replyWithTool replyFollowUp rfl rfl (by decide)
    (fun tc htc => ⟨[("session_id", "s1")], by
      simp [replyWithTool, tcSummary] at htc
      subst htc
      rfl⟩)

/-- C4: if the initial model request raises, `process_query` returns the
`Error processing your request: <message>` text, the caller's history is
untouched and so is the store; if the follow-up request raises (after the
first reply's invocations were resolved), it likewise returns the error text
and the caller's history is untouched — the working history with its appended
tool results is discarded, never handed back. No fault propagates: the
function is total. -/
theorem process_query_model_fault_contained (systemPrompt session_id : String) (env : RagEnv)
    (replies : List (Except String ModelReply)) (history : List Msg) (store : Store)
    (e : String) :
    (replies.getD 0 noReply = Except.error e →
      (process_query systemPrompt session_id env replies history store).answer =
        "Error processing your request: " ++ e ∧
      (process_query systemPrompt session_id env replies history store).persisted = history ∧
      (process_query systemPrompt session_id env replies history store).store = store) ∧
    (∀ r1, replies.getD 0 noReply = Except.ok r1 → r1.tool_calls ≠ [] →
      (∀ tc ∈ r1.tool_calls, ∃ d, tc.args = Except.ok d) →
      replies.getD 1 noReply = Except.error e →
      (process_query systemPrompt session_id env replies history store).answer =
        "Error processing your request: " ++ e ∧
      (process_query systemPrompt session_id env replies history store).persisted = history) := by
  constructor
  · intro h0
    simp only [process_query, h0]
    exact ⟨trivial, trivial, trivial⟩
  · intro r1 h0 hne hok h1
    obtain ⟨results, store1, hlen, heq⟩ := execToolCalls_parsed env session_id r1.tool_calls
      ((Msg.system systemPrompt :: history) ++ [Msg.assistant r1.content r1.tool_calls]) store [] hok
    simp only [process_query, h0]
    rw [if_neg hne]
    simp only [heq, h1]
    exact ⟨trivial, trivial⟩

/-- Witness for C4: a failing initial model call on a concrete history. -/
theorem process_query_model_fault_contained_witness :
    (process_query "sys" "s1" envFix [Except.error "boom"] [Msg.user "hello"]
      emptyStore).answer = "Error processing your request: " ++ "boom" ∧
    (process_query "sys" "s1" envFix [Except.error "boom"] [Msg.user "hello"]
      emptyStore).persisted = [Msg.user "hello"] ∧
    (process_query "sys" "s1" envFix [Except.error "boom"] [Msg.user "hello"]
      emptyStore).store = emptyStore :=
  (process_query_model_fault_contained "sys" "s1" envFix [Except.error "boom"]
    [Msg.user "hello"] emptyStore "boom").1 rfl

/-- C5 counterexample: on a malformed argument payload `execute_tool_call`
does not return a string — it propagates the `json.loads` fault to its
caller, because the parse at src/agent.py line 62 runs before the `try` block
that starts at line 73. -/
theorem execute_tool_call_malformed_propagates :
    execute_tool_call envFix tcMalformed "vendor-agent" emptyStore =
      Except.error "Expecting value: line 1 column 1 (char 0)" ∧
    ∀ result store1, execute_tool_call envFix tcMalformed "vendor-agent" emptyStore ≠
      Except.ok (result, store1) := by
  refine ⟨rfl, ?_⟩
  intro result store1 hc
  simp [execute_tool_call, tcMalformed] at hc

/-- C5 amended: on any PARSED argument payload `execute_tool_call` always
returns a string result without propagating a fault; an unregistered name
yields the `Unknown tool: <name>` text and leaves the store untouched; and a
keyword-binding fault during dispatch (for instance a summary call with no
session id available anywhere) is caught and rendered as the
`Error executing <name>: <message>` text. Only a payload on which
`json.loads` raises escapes the function — see the counterexample. -/
theorem execute_tool_call_parsed_total (env : RagEnv) (tc : ToolCall) (sid : String)
    (store : Store) (d : ArgDict) (hd : tc.args = Except.ok d) :
    (∃ result store1, execute_tool_call env tc sid store = Except.ok (result, store1)) ∧
    (tc.name ∉ ["lookupCompanyInformation", "saveComplianceCertifications",
        "saveDataAccessRequirements", "getOnboardingSummary"] →
      execute_tool_call env tc sid store = Except.ok ("Unknown tool: " ++ tc.name, store)) ∧
    (tc.name = "getOnboardingSummary" → argLookup d "session_id" = none → sid = "" →
      execute_tool_call env tc sid store =
        Except.ok ("Error executing " ++ tc.name ++ ": invalid arguments", store)) := by
  rw [execute_tool_call_parsed env tc sid store d hd]
  refine ⟨⟨_, _, rfl⟩, ?_, ?_⟩
  · intro hn
    simp only [List.mem_cons, List.mem_singleton, not_or] at hn
    obtain ⟨hn1, hn2, hn3, hn4⟩ := hn
    simp [dispatch, hn1, hn2, hn3, hn4]
  · intro hname hsidarg hsid
    simp [dispatch, hname, hsidarg, hsid]

/-- Witness for the amended C5: an unregistered tool name yields the
`Unknown tool` text rather than a fault. -/
theorem execute_tool_call_parsed_total_witness :
    execute_tool_call envFix tcUnknown "vendor-agent" emptyStore =
      Except.ok ("Unknown tool: " ++ tcUnknown.name, emptyStore) :=
  (execute_tool_call_parsed_total envFix tcUnknown "vendor-agent" emptyStore [] rfl).2.1
    (by decide)
